import Mathlib

/-!
Verification of the HubSpot OAuth integration adapter
(`backend/integrations/hubspot.py` together with `backend/redis_client.py`).

Modelling conventions (a shallow embedding of the Python source):

* JSON values are the inductive `JsonVal`.  The Python `json` library is an
  external collaborator; its documented round-trip property
  (`json.loads (json.dumps v) = v`, and `json.dumps` never returns the empty
  string) lets us identify a serialized JSON string with the `JsonVal` it
  denotes.  The cache therefore maps string keys to `JsonVal` values, the
  `json.dumps`/`json.loads` pairs in the source cancel, and the Python
  truthiness test on a raw serialized string (`if not credentials:`) is
  equivalent to a presence test.  A string arriving from the outside world
  (the `state` query parameter, the serialized credentials argument) is
  modelled through the lens of the parser as `Option JsonVal`:
  `none` stands for a string `json.loads` rejects, `some v` for a string
  parsing to `v`.
* The cache (`redis_client.py`, in-memory branch) is an association list from
  `String` keys to `JsonVal` values; `add_key_value_redis` /
  `get_value_redis` / `delete_key_redis` mirror the source functions.  TTL
  expiry is recorded in the effect trace but not in the store, because every
  claimed scenario is an immediate call sequence (well inside the 600 s TTL).
* Each operation returns its result together with the updated cache and a
  trace of the cache and network effects it performed, in order.  The trace
  is what makes frame conditions ("no network call was issued", "the cache
  was not touched") statable.
* Failures are `PyError`: `httpException status detail` models a raised
  `fastapi.HTTPException` (a classified failure the framework turns into a
  status/detail response), while `uncaught kind` models an unhandled Python
  exception (`TypeError`, `json.JSONDecodeError`, `AttributeError`, or a
  request-library error) escaping the function — an unclassified crash.
* Nondeterministic inputs of the environment (`secrets.token_urlsafe`, the
  token endpoint response, the three resource endpoint responses) are
  explicit parameters.
-/

/-- A JSON value as produced by `json.loads`. Numbers are restricted to
integers, which covers every value the source manipulates. -/
inductive JsonVal where
  | null : JsonVal
  | bool (b : Bool) : JsonVal
  | num (n : Int) : JsonVal
  | str (s : String) : JsonVal
  | arr (elems : List JsonVal) : JsonVal
  | obj (fields : List (String × JsonVal)) : JsonVal

mutual

/-- Boolean equality on `JsonVal` (nested inductive, so `DecidableEq` is
built by hand from it). -/
def jbeq : JsonVal → JsonVal → Bool
  | .null, .null => true
  | .bool a, .bool b => a == b
  | .num a, .num b => a == b
  | .str a, .str b => a == b
  | .arr xs, .arr ys => jbeqList xs ys
  | .obj fs, .obj gs => jbeqFields fs gs
  | _, _ => false

def jbeqList : List JsonVal → List JsonVal → Bool
  | [], [] => true
  | x :: xs, y :: ys => jbeq x y && jbeqList xs ys
  | _, _ => false

def jbeqFields : List (String × JsonVal) → List (String × JsonVal) → Bool
  | [], [] => true
  | (k, v) :: fs, (l, w) :: gs => k == l && jbeq v w && jbeqFields fs gs
  | _, _ => false

end

/-- Python `==` on two `dict.get` results (`None == None` is `True`,
`None` equals no JSON value). -/
def jbeqOpt : Option JsonVal → Option JsonVal → Bool
  | none, none => true
  | some a, some b => jbeq a b
  | _, _ => false

/-- Python truthiness of a JSON-derived value (`if not x:` in the source). -/
def truthy : JsonVal → Bool
  | .null => false
  | .bool b => b
  | .num n => n != 0
  | .str s => s != ""
  | .arr xs => !xs.isEmpty
  | .obj fs => !fs.isEmpty

/-- Truthiness of a `dict.get` result (`None` is falsy). -/
def truthyOpt : Option JsonVal → Bool
  | none => false
  | some v => truthy v

/-- Truthiness of a query-parameter lookup, a `str` or `None`. -/
def truthyStrOpt : Option String → Bool
  | none => false
  | some s => s != ""

/-- `fields.get key` on the field list of a JSON object. JSON object keys are
unique after `json.loads` (later duplicates overwrite earlier ones), so
first-match lookup agrees with the Python dict. -/
def jlookup : List (String × JsonVal) → String → Option JsonVal
  | [], _ => none
  | (k, v) :: fs, key => if k == key then some v else jlookup fs key

mutual

/-- Python `repr` of a JSON-derived value, as used by `str` on containers. -/
def pyRepr : JsonVal → String
  | .null => "None"
  | .bool true => "True"
  | .bool false => "False"
  | .num n => toString n
  | .str s => "\x27" ++ s ++ "\x27"
  | .arr xs => "[" ++ pyReprList xs ++ "]"
  | .obj fs => "\x7b" ++ pyReprFields fs ++ "\x7d"

def pyReprList : List JsonVal → String
  | [] => ""
  | [x] => pyRepr x
  | x :: y :: tl => pyRepr x ++ ", " ++ pyReprList (y :: tl)

def pyReprFields : List (String × JsonVal) → String
  | [] => ""
  | [(k, v)] => "\x27" ++ k ++ "\x27: " ++ pyRepr v
  | (k, v) :: f :: tl => "\x27" ++ k ++ "\x27: " ++ pyRepr v ++ ", " ++ pyReprFields (f :: tl)

end

/-- Python `str()` of a JSON-derived value, as interpolated by an f-string. -/
def pyStr : JsonVal → String
  | .str s => s
  | .null => "None"
  | .bool b => pyRepr (.bool b)
  | .num n => toString n
  | .arr xs => pyRepr (.arr xs)
  | .obj fs => pyRepr (.obj fs)

/-- Python `str()` of a `dict.get` result (`str(None) = "None"`). -/
def pyStrOpt : Option JsonVal → String
  | none => "None"
  | some v => pyStr v

/-- The key-value cache of `redis_client.py` (in-memory branch): an
association list, newest binding first. -/
abbrev Cache := List (String × JsonVal)

/-- `add_key_value_redis(key, value, expire)`: store `value` under `key`.
The `expire` TTL is carried in the effect trace; the store itself is
modelled without a clock (every claimed scenario is immediate). -/
def add_key_value_redis (cache : Cache) (key : String) (value : JsonVal) : Cache :=
  (key, value) :: cache

/-- `get_value_redis(key)`: the stored value, or `None` when absent. -/
def get_value_redis (cache : Cache) (key : String) : Option JsonVal :=
  (cache.find? (fun kv => kv.1 == key)).map Prod.snd

/-- `delete_key_redis(key)`: remove any binding of `key`. -/
def delete_key_redis (cache : Cache) (key : String) : Cache :=
  cache.filter (fun kv => kv.1 != key)

/-- A cache or network effect, in the order the operation performs them. -/
inductive Effect where
  | cacheGet (key : String) : Effect
  | cacheSet (key : String) (value : JsonVal) (expire : Option Nat) : Effect
  | cacheDelete (key : String) : Effect
  | httpPost (url : String) : Effect
  | httpGet (url : String) (limit : Nat) : Effect

/-- A failure escaping an operation: a raised `fastapi.HTTPException`
(classified, carries a status code and detail text) or an unhandled Python
exception (unclassified crash, e.g. `TypeError`, `JSONDecodeError`,
`AttributeError`, or a request-library error). -/
inductive PyError where
  | httpException (status : Nat) (detail : String) : PyError
  | uncaught (kind : String) : PyError
deriving DecidableEq

/- Constants from the head of `hubspot.py`. -/

def CLIENT_ID : String := "your_hubspot_client_id"

def CLIENT_SECRET : String := "your_hubspot_client_secret"

def REDIRECT_URI : String := "http://localhost:8000/integrations/hubspot/oauth2callback"

def SCOPE : String := "contacts%20oauth"

def authorization_url : String :=
  "https://app.hubspot.com/oauth/authorize?client_id=" ++ CLIENT_ID ++
    "&redirect_uri=" ++ REDIRECT_URI ++ "&scope=" ++ SCOPE

def token_url : String := "https://api.hubapi.com/oauth/v1/token"

/-- The f-string key `hubspot_state:{org_id}:{user_id}`. -/
def hubspot_state_key (org_id user_id : String) : String :=
  "hubspot_state:" ++ org_id ++ ":" ++ user_id

/-- The f-string key `hubspot_credentials:{org_id}:{user_id}`. -/
def hubspot_credentials_key (org_id user_id : String) : String :=
  "hubspot_credentials:" ++ org_id ++ ":" ++ user_id

/-- What `authorize_hubspot` produces: the source returns the single string
`authorization_url ++ "&state=" ++ json.dumps state_data`; under the
serialization identification we keep the embedded state as a `JsonVal`
(field `url_state`), next to the updated cache and the effect trace. -/
structure AuthorizeResult where
  url_state : JsonVal
  cache : Cache
  trace : List Effect

/-- `authorize_hubspot(user_id, org_id)`.  The nonce produced by
`secrets.token_urlsafe(32)` is an explicit parameter. -/
def authorize_hubspot (user_id org_id nonce : String) (cache : Cache) : AuthorizeResult :=
  let state_data : JsonVal :=
    .obj [("state", .str nonce), ("user_id", .str user_id), ("org_id", .str org_id)]
  { url_state := state_data
    cache := add_key_value_redis cache (hubspot_state_key org_id user_id) state_data
    trace := [Effect.cacheSet (hubspot_state_key org_id user_id) state_data (some 600)] }

/-- The callback request: `error` and `code` query parameters as the source
reads them, and the `state` parameter through the parser lens
(`none` = parameter absent, so `json.loads None` raises `TypeError`;
`some none` = present but not valid JSON, so `json.loads` raises
`JSONDecodeError`; `some (some v)` = present and parsing to `v`). -/
structure CallbackRequest where
  error : Option String
  code : Option String
  state : Option (Option JsonVal)

/-- The environment of one callback run: the outcome of the token-endpoint
POST.  `.ok v` is a delivered response whose `response.json()` is `v`;
`.error kind` is a request-level exception (connection failure, or an
undecodable body). -/
structure CallbackEnv where
  tokenExchange : Except String JsonVal

/-- Result of `oauth2callback_hubspot`: on success the HTML close-window
payload, otherwise the escaping failure; plus cache and trace. -/
structure CallbackResult where
  result : Except PyError String
  cache : Cache
  trace : List Effect

/-- The close-window HTML payload returned on success. -/
def close_window_script : String :=
  "\n    <html>\n        <script>\n            window.close();\n        </script>\n    </html>\n    "

/-- `oauth2callback_hubspot(request)`.  Follows the source line by line:
provider-error check, `json.loads` of the state parameter (`.get` on a
non-dict raises `AttributeError`), cache lookup keyed by the org/user taken
from the parsed state, presence-and-nonce comparison, then
`asyncio.gather` of the token POST and the state-key deletion — the
in-memory delete has no suspension point, so it completes inside the gather
even when the POST raises — and finally the credential store. -/
def oauth2callback_hubspot (req : CallbackRequest) (env : CallbackEnv)
    (cache : Cache) : CallbackResult :=
  if truthyStrOpt req.error then
    { result := .error (.httpException 400 (req.error.getD ""))
      cache := cache, trace := [] }
  else
    match req.state with
    | none => { result := .error (.uncaught "TypeError"), cache := cache, trace := [] }
    | some none => { result := .error (.uncaught "JSONDecodeError"), cache := cache, trace := [] }
    | some (some state_data) =>
      match state_data with
      | .obj sfields =>
        let original_state := jlookup sfields "state"
        let user_id := jlookup sfields "user_id"
        let org_id := jlookup sfields "org_id"
        let state_key := hubspot_state_key (pyStrOpt org_id) (pyStrOpt user_id)
        let saved_state := get_value_redis cache state_key
        match saved_state with
        | none =>
          { result := .error (.httpException 400 "State does not match.")
            cache := cache, trace := [Effect.cacheGet state_key] }
        | some saved =>
          match saved with
          | .obj savedFields =>
            if jbeqOpt original_state (jlookup savedFields "state") = false then
              { result := .error (.httpException 400 "State does not match.")
                cache := cache, trace := [Effect.cacheGet state_key] }
            else
              let cache1 := delete_key_redis cache state_key
              let trace1 := [Effect.cacheGet state_key, Effect.httpPost token_url,
                Effect.cacheDelete state_key]
              match env.tokenExchange with
              | .error kind =>
                { result := .error (.uncaught kind), cache := cache1, trace := trace1 }
              | .ok token_json =>
                let cred_key := hubspot_credentials_key (pyStrOpt org_id) (pyStrOpt user_id)
                { result := .ok close_window_script
                  cache := add_key_value_redis cache1 cred_key token_json
                  trace := trace1 ++ [Effect.cacheSet cred_key token_json (some 600)] }
          | _ =>
            { result := .error (.uncaught "AttributeError")
              cache := cache, trace := [Effect.cacheGet state_key] }
      | _ => { result := .error (.uncaught "AttributeError"), cache := cache, trace := [] }

/-- Result of `get_hubspot_credentials`: the parsed credentials object on
success, plus cache and trace. -/
structure RetrieveResult where
  result : Except PyError JsonVal
  cache : Cache
  trace : List Effect

/-- `get_hubspot_credentials(user_id, org_id)`.  The first `not credentials`
test is on the raw serialized string, which `json.dumps` never makes empty,
so it is a presence test; the second is Python truthiness of the parsed
value, and it fires before the deletion, so a falsy stored value is left in
place. -/
def get_hubspot_credentials (user_id org_id : String) (cache : Cache) : RetrieveResult :=
  let key := hubspot_credentials_key org_id user_id
  match get_value_redis cache key with
  | none =>
    { result := .error (.httpException 400 "No credentials found.")
      cache := cache, trace := [Effect.cacheGet key] }
  | some credentials =>
    if truthy credentials = false then
      { result := .error (.httpException 400 "No credentials found.")
        cache := cache, trace := [Effect.cacheGet key] }
    else
      { result := .ok credentials
        cache := delete_key_redis cache key
        trace := [Effect.cacheGet key, Effect.cacheDelete key] }

/-- Modelled from the spec: the repository imports `IntegrationItem` from
`integrations/integration_item.py`, a file not among the provided sources.
Section 3 of the spec defines the NormalizedItem record as
`\x7bid, type, name, creation_time, last_modified_time, url\x7d`; the
constructor keyword arguments used in `hubspot.py` match these field names.
`id` and the two timestamps come from `dict.get` and may be `None`; `name`
is whatever value the projection produces (a string for contacts, an
arbitrary JSON value for companies and deals). -/
structure IntegrationItem where
  id : Option JsonVal
  type : String
  name : JsonVal
  creation_time : Option JsonVal
  last_modified_time : Option JsonVal
  url : String

/-- `create_integration_item_metadata_object(response_json, item_type)`
(the source defaults `item_type` to `Contact`).  `.get` on a non-dict
raises `AttributeError`; concatenating a non-string first or last name
with `" "` raises `TypeError`. -/
def create_integration_item_metadata_object (response_json : JsonVal)
    (item_type : String) : Except PyError IntegrationItem :=
  match response_json with
  | .obj rfields =>
    match (jlookup rfields "properties").getD (.obj []) with
    | .obj pfields =>
      match (jlookup pfields "firstname").getD (.str ""),
          (jlookup pfields "lastname").getD (.str "") with
      | .str firstname, .str lastname =>
        .ok { id := jlookup rfields "id"
              type := item_type
              name := .str (firstname ++ " " ++ lastname)
              creation_time := jlookup rfields "createdAt"
              last_modified_time := jlookup rfields "updatedAt"
              url := "https://app.hubspot.com/contacts/" ++ pyStrOpt (jlookup rfields "id") }
      | _, _ => .error (.uncaught "TypeError")
    | _ => .error (.uncaught "AttributeError")
  | _ => .error (.uncaught "AttributeError")

/-- The company item built inline in the companies loop of
`get_items_hubspot`: `properties.name` with default `"Unnamed Company"`. -/
def make_company_item (company : JsonVal) : Except PyError IntegrationItem :=
  match company with
  | .obj cfields =>
    match (jlookup cfields "properties").getD (.obj []) with
    | .obj pfields =>
      .ok { id := jlookup cfields "id"
            type := "Company"
            name := (jlookup pfields "name").getD (.str "Unnamed Company")
            creation_time := jlookup cfields "createdAt"
            last_modified_time := jlookup cfields "updatedAt"
            url := "https://app.hubspot.com/contacts/" ++ pyStrOpt (jlookup cfields "id") }
    | _ => .error (.uncaught "AttributeError")
  | _ => .error (.uncaught "AttributeError")

/-- The deal item built inline in the deals loop of `get_items_hubspot`:
`properties.dealname` with default `"Unnamed Deal"`. -/
def make_deal_item (deal : JsonVal) : Except PyError IntegrationItem :=
  match deal with
  | .obj dfields =>
    match (jlookup dfields "properties").getD (.obj []) with
    | .obj pfields =>
      .ok { id := jlookup dfields "id"
            type := "Deal"
            name := (jlookup pfields "dealname").getD (.str "Unnamed Deal")
            creation_time := jlookup dfields "createdAt"
            last_modified_time := jlookup dfields "updatedAt"
            url := "https://app.hubspot.com/contacts/" ++ pyStrOpt (jlookup dfields "id") }
    | _ => .error (.uncaught "AttributeError")
  | _ => .error (.uncaught "AttributeError")

/-- The per-record loop body applied along a results list; the first raised
exception aborts the loop (it is caught by the enclosing `try`). -/
def mapItems (mk : JsonVal → Except PyError IntegrationItem) :
    List JsonVal → Except PyError (List IntegrationItem)
  | [] => .ok []
  | r :: rs =>
    match mk r with
    | .error e => .error e
    | .ok item =>
      match mapItems mk rs with
      | .error e => .error e
      | .ok items => .ok (item :: items)

/-- One delivered endpoint response: its HTTP status and decoded JSON body.
A body the `.json()` decoder rejects is a request-level exception and is
represented by the `.error` case of the environment instead. -/
structure HttpResponse where
  status_code : Nat
  body : JsonVal

/-- The environment of one `get_items_hubspot` run: the outcome of each of
the three endpoint GETs.  `.error kind` is an exception raised by the
request itself. -/
structure FetchEnv where
  contacts : Except String HttpResponse
  companies : Except String HttpResponse
  deals : Except String HttpResponse

/-- `if response.status_code == 200:` followed by the loop over
`data.get("results", [])`.  A non-200 response contributes no items and no
error; on 200, a non-dict body raises `AttributeError` at `.get`, and a
non-list `results` value crashes the `for` loop (modelled as `TypeError`,
the kind Python raises for a non-iterable; iterable non-list values also
crash, inside the loop body). -/
def process_response (resp : HttpResponse)
    (mk : JsonVal → Except PyError IntegrationItem) :
    Except PyError (List IntegrationItem) :=
  if resp.status_code = 200 then
    match resp.body with
    | .obj bfields =>
      match jlookup bfields "results" with
      | none => .ok []
      | some (.arr records) => mapItems mk records
      | some _ => .error (.uncaught "TypeError")
    | _ => .error (.uncaught "AttributeError")
  else .ok []

/-- The credentials argument of `get_items_hubspot`, which is passed to
`json.loads` first.  `serialized p` is a string with parse outcome `p`;
`parsed v` is an already-parsed non-string object (such as the dict
`get_hubspot_credentials` returns), on which `json.loads` raises
`TypeError` (documented Python behaviour: the argument must be
`str`, `bytes` or `bytearray`). -/
inductive CredentialsArg where
  | serialized (parse : Option JsonVal) : CredentialsArg
  | parsed (v : JsonVal) : CredentialsArg

/-- Result of `get_items_hubspot`: the normalized items or the escaping
failure, plus the trace of network effects. -/
structure FetchResult where
  result : Except PyError (List IntegrationItem)
  trace : List Effect

def contacts_url : String := "https://api.hubapi.com/crm/v3/objects/contacts"

def companies_url : String := "https://api.hubapi.com/crm/v3/objects/companies"

def deals_url : String := "https://api.hubapi.com/crm/v3/objects/deals"

/-- The `except Exception` clause: any exception raised inside the `try`
block is wrapped as `HTTPException(500, "Error fetching HubSpot data: ...")`. -/
def fetch_error (msg : String) : PyError :=
  .httpException 500 ("Error fetching HubSpot data: " ++ msg)

/-- `str(e)` of a caught exception, at the granularity the model carries. -/
def caught_message : PyError → String
  | .uncaught kind => kind
  | .httpException _ detail => detail

/-- `get_items_hubspot(credentials)`.  `json.loads` first, then the
access-token truthiness check before any request; then the three endpoint
GETs in source order (contacts limit 100, companies limit 50, deals limit
50) inside one `try`: a raised exception — request-level or from a
malformed record — aborts the remaining endpoints and is wrapped by
`fetch_error`, while a non-200 status merely contributes no items. -/
def get_items_hubspot (credentials : CredentialsArg) (env : FetchEnv) : FetchResult :=
  match credentials with
  | .parsed _ => { result := .error (.uncaught "TypeError"), trace := [] }
  | .serialized none => { result := .error (.uncaught "JSONDecodeError"), trace := [] }
  | .serialized (some creds) =>
    match creds with
    | .obj cfields =>
      if truthyOpt (jlookup cfields "access_token") = false then
        { result := .error (.httpException 400 "No access token found in credentials.")
          trace := [] }
      else
        match env.contacts with
        | .error kind =>
          { result := .error (fetch_error kind), trace := [Effect.httpGet contacts_url 100] }
        | .ok contacts_response =>
          match process_response contacts_response
              (fun r => create_integration_item_metadata_object r "Contact") with
          | .error e =>
            { result := .error (fetch_error (caught_message e))
              trace := [Effect.httpGet contacts_url 100] }
          | .ok contact_items =>
            match env.companies with
            | .error kind =>
              { result := .error (fetch_error kind)
                trace := [Effect.httpGet contacts_url 100, Effect.httpGet companies_url 50] }
            | .ok companies_response =>
              match process_response companies_response make_company_item with
              | .error e =>
                { result := .error (fetch_error (caught_message e))
                  trace := [Effect.httpGet contacts_url 100, Effect.httpGet companies_url 50] }
              | .ok company_items =>
                match env.deals with
                | .error kind =>
                  { result := .error (fetch_error kind)
                    trace := [Effect.httpGet contacts_url 100,
                      Effect.httpGet companies_url 50, Effect.httpGet deals_url 50] }
                | .ok deals_response =>
                  match process_response deals_response make_deal_item with
                  | .error e =>
                    { result := .error (fetch_error (caught_message e))
                      trace := [Effect.httpGet contacts_url 100,
                        Effect.httpGet companies_url 50, Effect.httpGet deals_url 50] }
                  | .ok deal_items =>
                    { result := .ok (contact_items ++ company_items ++ deal_items)
                      trace := [Effect.httpGet contacts_url 100,
                        Effect.httpGet companies_url 50, Effect.httpGet deals_url 50] }
    | _ => { result := .error (.uncaught "AttributeError"), trace := [] }

/-- Whether a result failed as a classified `HTTPException` (status and
detail visible to the caller) rather than as an unhandled crash. -/
def classified_failure : Except PyError String → Bool
  | .error (.httpException _ _) => true
  | _ => false

/-! Basic lemmas about the embedding: equality on `JsonVal`, the cache
operations, and disjointness of the two key families. -/

mutual

theorem jbeq_refl : ∀ a : JsonVal, jbeq a a = true
  | .null => rfl
  | .bool b => by simp [jbeq]
  | .num n => by simp [jbeq]
  | .str s => by simp [jbeq]
  | .arr xs => by simp [jbeq, jbeqList_refl xs]
  | .obj fs => by simp [jbeq, jbeqFields_refl fs]

theorem jbeqList_refl : ∀ xs : List JsonVal, jbeqList xs xs = true
  | [] => rfl
  | x :: xs => by simp [jbeqList, jbeq_refl x, jbeqList_refl xs]

theorem jbeqFields_refl : ∀ fs : List (String × JsonVal), jbeqFields fs fs = true
  | [] => rfl
  | (k, v) :: fs => by simp [jbeqFields, jbeq_refl v, jbeqFields_refl fs]

end

mutual

theorem jbeq_eq : ∀ a b : JsonVal, jbeq a b = true → a = b
  | .null, b, h => by cases b <;> simp_all [jbeq]
  | .bool x, b, h => by cases b <;> simp_all [jbeq]
  | .num x, b, h => by cases b <;> simp_all [jbeq]
  | .str x, b, h => by cases b <;> simp_all [jbeq]
  | .arr xs, b, h => by
      cases b <;> simp_all [jbeq]
      case arr ys => exact jbeqList_eq xs ys h
  | .obj fs, b, h => by
      cases b <;> simp_all [jbeq]
      case obj gs => exact jbeqFields_eq fs gs h

theorem jbeqList_eq : ∀ xs ys : List JsonVal, jbeqList xs ys = true → xs = ys
  | [], ys, h => by cases ys <;> simp_all [jbeqList]
  | x :: xs, ys, h => by
      cases ys with
      | nil => simp_all [jbeqList]
      | cons y ys =>
        simp only [jbeqList, Bool.and_eq_true] at h
        simp [jbeq_eq x y h.1, jbeqList_eq xs ys h.2]

theorem jbeqFields_eq : ∀ fs gs : List (String × JsonVal), jbeqFields fs gs = true → fs = gs
  | [], gs, h => by cases gs <;> simp_all [jbeqFields]
  | (k, v) :: fs, gs, h => by
      cases gs with
      | nil => simp_all [jbeqFields]
      | cons g gs =>
        obtain ⟨l, w⟩ := g
        simp only [jbeqFields, Bool.and_eq_true, beq_iff_eq] at h
        simp [h.1.1, jbeq_eq v w h.1.2, jbeqFields_eq fs gs h.2]

end

theorem jbeqOpt_iff (a b : Option JsonVal) : jbeqOpt a b = true ↔ a = b := by
  cases a with
  | none => cases b <;> simp [jbeqOpt]
  | some x =>
    cases b with
    | none => simp [jbeqOpt]
    | some y =>
      simp only [jbeqOpt, Option.some.injEq]
      exact ⟨jbeq_eq x y, fun h => h ▸ jbeq_refl x⟩

theorem get_value_add_same (cache : Cache) (key : String) (value : JsonVal) :
    get_value_redis (add_key_value_redis cache key value) key = some value := by
  simp [get_value_redis, add_key_value_redis, List.find?_cons_of_pos]

theorem get_value_add_other (cache : Cache) (key key2 : String) (value : JsonVal)
    (h : key2 ≠ key) :
    get_value_redis (add_key_value_redis cache key value) key2 = get_value_redis cache key2 := by
  have hb : (key == key2) = false := by simp [h.symm]
  simp [get_value_redis, add_key_value_redis, List.find?_cons_of_neg, hb]

theorem get_value_delete_same (cache : Cache) (key : String) :
    get_value_redis (delete_key_redis cache key) key = none := by
  induction cache with
  | nil => rfl
  | cons kv cache ih =>
    obtain ⟨k1, v1⟩ := kv
    by_cases h : k1 = key
    · have hb : (k1 != key) = false := by simp [h]
      have heq : delete_key_redis ((k1, v1) :: cache) key = delete_key_redis cache key := by
        simp [delete_key_redis, List.filter_cons, hb]
      rw [heq]
      exact ih
    · have hb : (k1 != key) = true := by simp [h]
      have hb2 : (k1 == key) = false := by simp [h]
      simp [delete_key_redis, List.filter_cons, hb, get_value_redis,
        List.find?_cons_of_neg, hb2, ih]

theorem get_value_delete_other (cache : Cache) (key key2 : String) (h : key2 ≠ key) :
    get_value_redis (delete_key_redis cache key) key2 = get_value_redis cache key2 := by
  induction cache with
  | nil => rfl
  | cons kv cache ih =>
    obtain ⟨k1, v1⟩ := kv
    by_cases h1 : k1 = key
    · have hb : (k1 != key) = false := by simp [h1]
      have hb2 : (k1 == key2) = false := by
        have hne : k1 ≠ key2 := fun he => h (Eq.trans (Eq.symm he) h1)
        simp [hne]
      have heq : delete_key_redis ((k1, v1) :: cache) key = delete_key_redis cache key := by
        simp [delete_key_redis, List.filter_cons, hb]
      rw [heq, ih]
      simp [get_value_redis, List.find?_cons_of_neg, hb2]
    · have hb : (k1 != key) = true := by simp [h1]
      by_cases h2 : k1 = key2
      · subst h2
        simp [delete_key_redis, List.filter_cons, hb, get_value_redis,
          List.find?_cons_of_pos]
      · have hb2 : (k1 == key2) = false := by simp [h2]
        simpa [delete_key_redis, List.filter_cons, hb, get_value_redis,
          List.find?_cons_of_neg, hb2] using ih

theorem state_key_ne_credentials_key (o1 u1 o2 u2 : String) :
    hubspot_state_key o1 u1 ≠ hubspot_credentials_key o2 u2 := by
  intro h
  have h2 : (("hubspot_state:".data ++ o1.data) ++ ":".data) ++ u1.data =
      (("hubspot_credentials:".data ++ o2.data) ++ ":".data) ++ u2.data :=
    congrArg String.data h
  simp [List.append_assoc] at h2

/-! The claims. -/

/-- C8: a callback request carrying a non-empty `error` query parameter fails
with the provider error — `HTTPException 400` carrying the provider text —
and the cache is left completely unchanged, with no cache read, write or
delete and no network effect performed at all (the effect trace is empty). -/
theorem C8_provider_error_leaves_cache_untouched
    (req : CallbackRequest) (env : CallbackEnv) (cache : Cache) (e : String)
    (herr : req.error = some e) (hne : e ≠ "") :
    oauth2callback_hubspot req env cache =
      { result := .error (.httpException 400 e), cache := cache, trace := [] } := by
  simp [oauth2callback_hubspot, truthyStrOpt, herr, hne]

theorem C8_provider_error_leaves_cache_untouched_witness :
    oauth2callback_hubspot { error := some "access_denied", code := none, state := none }
      { tokenExchange := .error "unreachable" } [] =
      { result := .error (.httpException 400 "access_denied"), cache := [], trace := [] } :=
  C8_provider_error_leaves_cache_untouched _ _ _ "access_denied" rfl (by decide)

/-- C7: when the parsed credentials object has no `access_token` field,
`get_items_hubspot` fails with the missing-token error
(`HTTPException 400`, "No access token found in credentials.") and issues no
network call: its effect trace is empty, so no HTTP GET precedes the check. -/
theorem C7_missing_token_no_network
    (cfields : List (String × JsonVal)) (env : FetchEnv)
    (hmiss : jlookup cfields "access_token" = none) :
    get_items_hubspot (.serialized (some (.obj cfields))) env =
      { result := .error (.httpException 400 "No access token found in credentials.")
        trace := [] } := by
  simp [get_items_hubspot, hmiss, truthyOpt]

theorem C7_missing_token_no_network_witness :
    get_items_hubspot (.serialized (some (.obj [("refresh_token", .str "r")])))
      { contacts := .error "unreachable", companies := .error "unreachable",
        deals := .error "unreachable" } =
      { result := .error (.httpException 400 "No access token found in credentials.")
        trace := [] } :=
  C7_missing_token_no_network _ _ rfl

/-- C10: `get_items_hubspot` applies `json.loads` to its argument first, so
the already-parsed dictionary object a successful `get_hubspot_credentials`
returns makes it raise an unhandled `TypeError` before the missing-token
check is reached and before any network call: the two operations do not
compose without re-serialization. -/
theorem C10_retrieve_fetch_interface_mismatch
    (user_id org_id : String) (cache : Cache) (env : FetchEnv) (v : JsonVal)
    (hok : (get_hubspot_credentials user_id org_id cache).result = .ok v) :
    get_items_hubspot (.parsed v) env =
      { result := .error (.uncaught "TypeError"), trace := [] } ∧
    (get_items_hubspot (.parsed v) env).result ≠
      .error (.httpException 400 "No access token found in credentials.") := by
  refine ⟨rfl, ?_⟩
  simp [get_items_hubspot]

theorem C10_retrieve_fetch_interface_mismatch_witness :
    (get_hubspot_credentials "u" "o"
        [("hubspot_credentials:o:u", .obj [("access_token", .str "tok")])]).result =
      .ok (.obj [("access_token", .str "tok")]) ∧
    get_items_hubspot (.parsed (.obj [("access_token", .str "tok")]))
      { contacts := .error "unreachable", companies := .error "unreachable",
        deals := .error "unreachable" } =
      { result := .error (.uncaught "TypeError"), trace := [] } :=
  ⟨rfl, (C10_retrieve_fetch_interface_mismatch "u" "o"
      [("hubspot_credentials:o:u", .obj [("access_token", .str "tok")])]
      { contacts := .error "unreachable", companies := .error "unreachable",
        deals := .error "unreachable" }
      (.obj [("access_token", .str "tok")]) rfl).1⟩

/-- C9 counterexample: at the concrete callback request with no `error`
parameter and a `state` parameter that is not valid serialized
AuthorizationState (a string `json.loads` rejects), the handler fails with
an unhandled `JSONDecodeError` — an unclassified crash, not a classified
distinguishable failure — refuting the claim at this input. -/
theorem C9_counterexample_unclassified_crash :
    (oauth2callback_hubspot { error := none, code := some "c", state := some none }
        { tokenExchange := .error "unreachable" } []).result =
      .error (.uncaught "JSONDecodeError") ∧
    classified_failure
      (oauth2callback_hubspot { error := none, code := some "c", state := some none }
        { tokenExchange := .error "unreachable" } []).result = false :=
  ⟨rfl, rfl⟩

/-- C9 amended: for every callback request without a truthy `error`
parameter whose `state` parameter is absent or not valid JSON, the handler
raises an unhandled exception — `TypeError` when the parameter is absent
(`json.loads None`), `JSONDecodeError` when it does not parse — leaving the
cache unchanged and performing no effect; the failure escapes as an
unclassified crash, there being no `MalformedStateError` classification in
the code. -/
theorem C9_malformed_state_unhandled
    (req : CallbackRequest) (env : CallbackEnv) (cache : Cache)
    (hnoerr : truthyStrOpt req.error = false) :
    (req.state = none →
      oauth2callback_hubspot req env cache =
        { result := .error (.uncaught "TypeError"), cache := cache, trace := [] }) ∧
    (req.state = some none →
      oauth2callback_hubspot req env cache =
        { result := .error (.uncaught "JSONDecodeError"), cache := cache, trace := [] }) := by
  constructor
  · intro hs
    simp [oauth2callback_hubspot, hnoerr, hs]
  · intro hs
    simp [oauth2callback_hubspot, hnoerr, hs]

theorem C9_malformed_state_unhandled_witness :
    truthyStrOpt (({ error := none, code := some "c", state := some none } :
        CallbackRequest).error) = false ∧
    oauth2callback_hubspot { error := none, code := some "c", state := some none }
        { tokenExchange := .error "unreachable" } [] =
      { result := .error (.uncaught "JSONDecodeError"), cache := [], trace := [] } :=
  ⟨rfl, (C9_malformed_state_unhandled
      { error := none, code := some "c", state := some none }
      { tokenExchange := .error "unreachable" } [] rfl).2 rfl⟩

/-- After `authorize_hubspot`, a callback presented with the exact embedded
state passes both state checks and reaches the gather: the state entry is
read, the token POST is issued and the state entry deleted, and the outcome
follows the token exchange outcome. -/
theorem oauth2callback_of_authorize (user_id org_id nonce : String)
    (code : Option String) (env : CallbackEnv) (cache0 : Cache) :
    oauth2callback_hubspot
        { error := none, code := code
          state := some (some (authorize_hubspot user_id org_id nonce cache0).url_state) }
        env (authorize_hubspot user_id org_id nonce cache0).cache =
      match env.tokenExchange with
      | .error kind =>
          { result := .error (.uncaught kind)
            cache := delete_key_redis (authorize_hubspot user_id org_id nonce cache0).cache
              (hubspot_state_key org_id user_id)
            trace := [Effect.cacheGet (hubspot_state_key org_id user_id),
              Effect.httpPost token_url,
              Effect.cacheDelete (hubspot_state_key org_id user_id)] }
      | .ok token_json =>
          { result := .ok close_window_script
            cache := add_key_value_redis
              (delete_key_redis (authorize_hubspot user_id org_id nonce cache0).cache
                (hubspot_state_key org_id user_id))
              (hubspot_credentials_key org_id user_id) token_json
            trace := [Effect.cacheGet (hubspot_state_key org_id user_id),
              Effect.httpPost token_url,
              Effect.cacheDelete (hubspot_state_key org_id user_id),
              Effect.cacheSet (hubspot_credentials_key org_id user_id) token_json (some 600)] } := by
  cases henv : env.tokenExchange with
  | error kind =>
    simp [oauth2callback_hubspot, authorize_hubspot, truthyStrOpt, jlookup, pyStrOpt, pyStr,
      jbeqOpt, jbeq, get_value_add_same, henv]
  | ok token_json =>
    simp [oauth2callback_hubspot, authorize_hubspot, truthyStrOpt, jlookup, pyStrOpt, pyStr,
      jbeqOpt, jbeq, get_value_add_same, henv]

/-- A successful credential retrieval deletes the entry, so the immediately
following retrieval for the same pair fails. -/
theorem retrieve_consumes (user_id org_id : String) (cache : Cache) (v : JsonVal)
    (h : (get_hubspot_credentials user_id org_id cache).result = .ok v) :
    (get_hubspot_credentials user_id org_id
      (get_hubspot_credentials user_id org_id cache).cache).result =
      .error (.httpException 400 "No credentials found.") := by
  unfold get_hubspot_credentials at h ⊢
  cases hget : get_value_redis cache (hubspot_credentials_key org_id user_id) with
  | none => simp [hget] at h
  | some c =>
    by_cases ht : truthy c = false
    · simp [hget, ht] at h
    · simp [hget, ht, get_value_delete_same]

/-- C4: with the state checks passed, the token POST and the deletion of the
consumed state entry are issued together; when the token exchange fails, the
failure propagates but the trace shows the POST and the deletion both
happened, and the state key is gone from the resulting cache — no consumable
state entry is left behind on failure. -/
theorem C4_state_deleted_even_on_failure (user_id org_id nonce : String)
    (code : Option String) (cache0 : Cache) (kind : String) :
    oauth2callback_hubspot
        { error := none, code := code
          state := some (some (authorize_hubspot user_id org_id nonce cache0).url_state) }
        { tokenExchange := .error kind }
        (authorize_hubspot user_id org_id nonce cache0).cache =
      { result := .error (.uncaught kind)
        cache := delete_key_redis (authorize_hubspot user_id org_id nonce cache0).cache
          (hubspot_state_key org_id user_id)
        trace := [Effect.cacheGet (hubspot_state_key org_id user_id),
          Effect.httpPost token_url,
          Effect.cacheDelete (hubspot_state_key org_id user_id)] } ∧
    get_value_redis
        (delete_key_redis (authorize_hubspot user_id org_id nonce cache0).cache
          (hubspot_state_key org_id user_id))
        (hubspot_state_key org_id user_id) = none :=
  ⟨oauth2callback_of_authorize user_id org_id nonce code
      { tokenExchange := .error kind } cache0,
    get_value_delete_same _ _⟩

/-- C3: `authorize_hubspot` followed immediately by a callback carrying the
exact state embedded in the returned URL passes the state validation — the
result is never the `StateMismatchError` — and a second callback presenting
the same state value, after its cache entry was consumed by the first,
fails with the `StateMismatchError` (HTTP 400, "State does not match."),
whatever the token exchanges returned. -/
theorem C3_authorize_callback_roundtrip (user_id org_id nonce : String)
    (code code2 : Option String) (env env2 : CallbackEnv) (cache0 : Cache) :
    (oauth2callback_hubspot
        { error := none, code := code
          state := some (some (authorize_hubspot user_id org_id nonce cache0).url_state) }
        env (authorize_hubspot user_id org_id nonce cache0).cache).result ≠
      .error (.httpException 400 "State does not match.") ∧
    (oauth2callback_hubspot
        { error := none, code := code2
          state := some (some (authorize_hubspot user_id org_id nonce cache0).url_state) }
        env2
        (oauth2callback_hubspot
            { error := none, code := code
              state := some (some (authorize_hubspot user_id org_id nonce cache0).url_state) }
            env (authorize_hubspot user_id org_id nonce cache0).cache).cache).result =
      .error (.httpException 400 "State does not match.") := by
  rw [oauth2callback_of_authorize]
  cases henv : env.tokenExchange with
  | error kind =>
    constructor
    · simp
    · simp [oauth2callback_hubspot, authorize_hubspot, truthyStrOpt, jlookup, pyStrOpt, pyStr,
        get_value_delete_same]
  | ok token_json =>
    constructor
    · simp
    · have hother : get_value_redis
          (add_key_value_redis
            (delete_key_redis (authorize_hubspot user_id org_id nonce cache0).cache
              (hubspot_state_key org_id user_id))
            (hubspot_credentials_key org_id user_id) token_json)
          (hubspot_state_key org_id user_id) = none := by
        rw [get_value_add_other _ _ _ _ (state_key_ne_credentials_key org_id user_id org_id user_id)]
        exact get_value_delete_same _ _
      simp only [authorize_hubspot] at hother
      simp [oauth2callback_hubspot, authorize_hubspot, truthyStrOpt, jlookup, pyStrOpt, pyStr,
        hother]

/-- C1: credential single-use — after a complete authorize/callback run
whose token exchange delivered a truthy credentials object, the callback
succeeds and stores it; the first `get_hubspot_credentials` for the same
(user_id, org_id) returns exactly the parsed credentials object, the second
immediate call fails with the no-credentials error; and in general, for any
cache, a successful retrieval is never followed by a second successful one:
a credentials entry is never successfully retrieved twice. -/
theorem C1_credential_single_use (user_id org_id nonce : String) (code : Option String)
    (cache0 : Cache) (tok : JsonVal) (htok : truthy tok = true) :
    (oauth2callback_hubspot
        { error := none, code := code
          state := some (some (authorize_hubspot user_id org_id nonce cache0).url_state) }
        { tokenExchange := .ok tok }
        (authorize_hubspot user_id org_id nonce cache0).cache).result =
      .ok close_window_script ∧
    (get_hubspot_credentials user_id org_id
        (oauth2callback_hubspot
          { error := none, code := code
            state := some (some (authorize_hubspot user_id org_id nonce cache0).url_state) }
          { tokenExchange := .ok tok }
          (authorize_hubspot user_id org_id nonce cache0).cache).cache).result = .ok tok ∧
    (get_hubspot_credentials user_id org_id
        (get_hubspot_credentials user_id org_id
          (oauth2callback_hubspot
            { error := none, code := code
              state := some (some (authorize_hubspot user_id org_id nonce cache0).url_state) }
            { tokenExchange := .ok tok }
            (authorize_hubspot user_id org_id nonce cache0).cache).cache).cache).result =
      .error (.httpException 400 "No credentials found.") ∧
    (∀ cache : Cache, ∀ v : JsonVal,
      (get_hubspot_credentials user_id org_id cache).result = .ok v →
      (get_hubspot_credentials user_id org_id
          (get_hubspot_credentials user_id org_id cache).cache).result =
        .error (.httpException 400 "No credentials found.")) := by
  have hcb := oauth2callback_of_authorize user_id org_id nonce code
    { tokenExchange := .ok tok } cache0
  refine ⟨?_, ?_, ?_, fun cache v h => retrieve_consumes user_id org_id cache v h⟩
  · simp [hcb]
  · simp [hcb, get_hubspot_credentials, get_value_add_same, htok]
  · simp [hcb, get_hubspot_credentials, get_value_add_same, htok, get_value_delete_same]

theorem C1_credential_single_use_witness :
    truthy (.obj [("access_token", .str "t")]) = true ∧
    (get_hubspot_credentials "u" "o"
        (oauth2callback_hubspot
          { error := none, code := some "c"
            state := some (some (authorize_hubspot "u" "o" "n" []).url_state) }
          { tokenExchange := .ok (.obj [("access_token", .str "t")]) }
          (authorize_hubspot "u" "o" "n" []).cache).cache).result =
      .ok (.obj [("access_token", .str "t")]) ∧
    (get_hubspot_credentials "u" "o"
        (get_hubspot_credentials "u" "o"
          (oauth2callback_hubspot
            { error := none, code := some "c"
              state := some (some (authorize_hubspot "u" "o" "n" []).url_state) }
            { tokenExchange := .ok (.obj [("access_token", .str "t")]) }
            (authorize_hubspot "u" "o" "n" []).cache).cache).cache).result =
      .error (.httpException 400 "No credentials found.") :=
  ⟨rfl,
    (C1_credential_single_use "u" "o" "n" (some "c") []
      (.obj [("access_token", .str "t")]) rfl).2.1,
    (C1_credential_single_use "u" "o" "n" (some "c") []
      (.obj [("access_token", .str "t")]) rfl).2.2.1⟩

/-- C6: the normalization projection — the example contact record maps,
through a full `get_items_hubspot` run with empty companies and deals
results, to exactly the claimed item (id "1", type Contact, name "A B",
the two timestamps, url ending in `/contacts/1`); a company record whose
`properties` lack `name` yields name "Unnamed Company", and a deal record
whose `properties` lack `dealname` yields name "Unnamed Deal". -/
theorem C6_normalization_projection :
    get_items_hubspot (.serialized (some (.obj [("access_token", .str "tok")])))
      { contacts := .ok { status_code := 200, body := .obj [("results", .arr
          [.obj [("id", .str "1"),
            ("properties", .obj [("firstname", .str "A"), ("lastname", .str "B")]),
            ("createdAt", .str "t1"), ("updatedAt", .str "t2")]])] }
        companies := .ok { status_code := 200, body := .obj [("results", .arr [])] }
        deals := .ok { status_code := 200, body := .obj [("results", .arr [])] } } =
      { result := .ok [{ id := some (.str "1")
                         type := "Contact"
                         name := .str "A B"
                         creation_time := some (.str "t1")
                         last_modified_time := some (.str "t2")
                         url := "https://app.hubspot.com/contacts/1" }]
        trace := [Effect.httpGet contacts_url 100, Effect.httpGet companies_url 50,
          Effect.httpGet deals_url 50] } ∧
    make_company_item (.obj [("id", .str "9"),
        ("properties", .obj [("domain", .str "x.com")])]) =
      .ok { id := some (.str "9")
            type := "Company"
            name := .str "Unnamed Company"
            creation_time := none
            last_modified_time := none
            url := "https://app.hubspot.com/contacts/9" } ∧
    make_deal_item (.obj [("id", .str "7"), ("properties", .obj [("amount", .num 5)])]) =
      .ok { id := some (.str "7")
            type := "Deal"
            name := .str "Unnamed Deal"
            creation_time := none
            last_modified_time := none
            url := "https://app.hubspot.com/contacts/7" } :=
  ⟨rfl, rfl, rfl⟩

/-- C5: per-endpoint failure tolerance in `get_items_hubspot` — with a
truthy access token and delivered responses, a non-200 companies response
contributes zero items while the contacts and deals items are still
returned (no exception propagated for that endpoint); a request-level
thrown failure (here on the contacts request) terminates the whole
operation, wrapped as `HTTPException 500` carrying the underlying cause. -/
theorem C5_endpoint_failure_tolerance
    (tok : String) (htok : tok ≠ "")
    (cresp dresp : HttpResponse) (comp_status : Nat) (comp_body : JsonVal)
    (hcomp : comp_status ≠ 200)
    (contact_items deal_items : List IntegrationItem)
    (hc : process_response cresp
        (fun r => create_integration_item_metadata_object r "Contact") = .ok contact_items)
    (hd : process_response dresp make_deal_item = .ok deal_items)
    (kind : String) :
    get_items_hubspot (.serialized (some (.obj [("access_token", .str tok)])))
      { contacts := .ok cresp
        companies := .ok { status_code := comp_status, body := comp_body }
        deals := .ok dresp } =
      { result := .ok (contact_items ++ deal_items)
        trace := [Effect.httpGet contacts_url 100, Effect.httpGet companies_url 50,
          Effect.httpGet deals_url 50] } ∧
    (get_items_hubspot (.serialized (some (.obj [("access_token", .str tok)])))
        { contacts := .error kind
          companies := .ok { status_code := comp_status, body := comp_body }
          deals := .ok dresp }).result =
      .error (.httpException 500 ("Error fetching HubSpot data: " ++ kind)) := by
  have hcompanies : process_response { status_code := comp_status, body := comp_body }
      make_company_item = .ok [] := by
    simp [process_response, hcomp]
  constructor
  · simp [get_items_hubspot, jlookup, truthyOpt, truthy, htok, hc, hd, hcompanies]
  · simp [get_items_hubspot, jlookup, truthyOpt, truthy, htok, fetch_error]

theorem C5_endpoint_failure_tolerance_witness :
    ("t" : String) ≠ "" ∧ (500 : Nat) ≠ 200 ∧
    (get_items_hubspot (.serialized (some (.obj [("access_token", .str "t")])))
      { contacts := .ok { status_code := 200, body := .obj [("results", .arr [])] }
        companies := .ok { status_code := 500, body := .obj [] }
        deals := .ok { status_code := 200, body := .obj [("results", .arr [])] } } =
      { result := .ok []
        trace := [Effect.httpGet contacts_url 100, Effect.httpGet companies_url 50,
          Effect.httpGet deals_url 50] } ∧
    (get_items_hubspot (.serialized (some (.obj [("access_token", .str "t")])))
        { contacts := .error "ConnectionError"
          companies := .ok { status_code := 500, body := .obj [] }
          deals := .ok { status_code := 200, body := .obj [("results", .arr [])] } }).result =
      .error (.httpException 500 ("Error fetching HubSpot data: " ++ "ConnectionError"))) :=
  ⟨by decide, by decide,
    C5_endpoint_failure_tolerance "t" (by decide)
      { status_code := 200, body := .obj [("results", .arr [])] }
      { status_code := 200, body := .obj [("results", .arr [])] }
      500 (.obj []) (by decide) [] [] rfl rfl "ConnectionError"⟩

/-- C2: for every callback request with no truthy `error` parameter whose
`state` parameter parses to a JSON object, provided the cache entry under
the state key derived from that object is itself an object when present (as
every entry `authorize_hubspot` writes is), the handler fails with the
`StateMismatchError` (HTTP 400, "State does not match.") exactly when the
cache has no entry under that key or the nonce stored in the entry differs
from the nonce presented in the state: presence and nonce equality are both
checked. -/
theorem C2_state_mismatch_iff
    (env : CallbackEnv) (cache : Cache) (code : Option String)
    (sfields : List (String × JsonVal)) (skey : String)
    (hkey : skey = hubspot_state_key (pyStrOpt (jlookup sfields "org_id"))
        (pyStrOpt (jlookup sfields "user_id")))
    (hsaved : ∀ saved : JsonVal, get_value_redis cache skey = some saved →
        ∃ savedFields, saved = JsonVal.obj savedFields) :
    ((oauth2callback_hubspot
        { error := none, code := code, state := some (some (.obj sfields)) }
        env cache).result =
      .error (.httpException 400 "State does not match.")) ↔
    (get_value_redis cache skey = none ∨
      ∃ savedFields, get_value_redis cache skey = some (.obj savedFields) ∧
        jlookup savedFields "state" ≠ jlookup sfields "state") := by
  subst hkey
  cases hsv : get_value_redis cache
      (hubspot_state_key (pyStrOpt (jlookup sfields "org_id"))
        (pyStrOpt (jlookup sfields "user_id"))) with
  | none =>
    simp [oauth2callback_hubspot, truthyStrOpt, hsv]
  | some saved =>
    obtain ⟨savedFields, rfl⟩ := hsaved saved hsv
    by_cases hb : jbeqOpt (jlookup sfields "state") (jlookup savedFields "state") = false
    · have hne2 : jlookup sfields "state" ≠ jlookup savedFields "state" := by
        intro he
        have ht : jbeqOpt (jlookup sfields "state") (jlookup savedFields "state") = true :=
          (jbeqOpt_iff _ _).mpr he
        rw [hb] at ht
        exact Bool.noConfusion ht
      have hne : jlookup savedFields "state" ≠ jlookup sfields "state" :=
        fun he => hne2 he.symm
      simp [oauth2callback_hubspot, truthyStrOpt, hsv, hb, hne]
    · have hbt : jbeqOpt (jlookup sfields "state") (jlookup savedFields "state") = true := by
        cases hx : jbeqOpt (jlookup sfields "state") (jlookup savedFields "state") with
        | false => exact absurd hx hb
        | true => rfl
      have heq : jlookup sfields "state" = jlookup savedFields "state" :=
        (jbeqOpt_iff _ _).mp hbt
      cases henv : env.tokenExchange with
      | error kind =>
        simp [oauth2callback_hubspot, truthyStrOpt, hsv, hbt, henv]
        exact heq.symm
      | ok token_json =>
        simp [oauth2callback_hubspot, truthyStrOpt, hsv, hbt, henv]
        exact heq.symm

theorem C2_state_mismatch_iff_witness :
    ((oauth2callback_hubspot
        { error := none, code := some "c"
          state := some (some (.obj [("state", .str "n"), ("user_id", .str "u"),
            ("org_id", .str "o")])) }
        { tokenExchange := .error "unreachable" }
        [("hubspot_state:o:u", .obj [("state", .str "m")])]).result =
      .error (.httpException 400 "State does not match.")) ↔
    (get_value_redis [("hubspot_state:o:u", .obj [("state", .str "m")])]
        "hubspot_state:o:u" = none ∨
      ∃ savedFields, get_value_redis [("hubspot_state:o:u", .obj [("state", .str "m")])]
          "hubspot_state:o:u" = some (.obj savedFields) ∧
        jlookup savedFields "state" ≠ jlookup [("state", .str "n"), ("user_id", .str "u"),
          ("org_id", .str "o")] "state") :=
  C2_state_mismatch_iff { tokenExchange := .error "unreachable" }
    [("hubspot_state:o:u", .obj [("state", .str "m")])] (some "c")
    [("state", .str "n"), ("user_id", .str "u"), ("org_id", .str "o")]
    "hubspot_state:o:u" rfl
    (fun saved h => by
      rw [show get_value_redis [("hubspot_state:o:u", .obj [("state", .str "m")])]
          "hubspot_state:o:u" = some (JsonVal.obj [("state", JsonVal.str "m")]) from rfl] at h
      exact ⟨[("state", JsonVal.str "m")], (Option.some.inj h).symm⟩)
